import Mathlib

/-!
# Faculty controller of the assessment backend

A shallow embedding of `backend/controllers/facultyController.js`: the handlers
`createAAT1`, `createAAT2`, `createRemedialSession`, `getAAT1Submissions` and
`gradeAAT1Submission`, written as functions from a request and a world to a new
world and an HTTP response.

The Mongoose models (`models/*.js`) and the mailer (`utils/emailUtils.js`) are
imported by the controller but are not part of the sources at hand.  They are
modelled from the specification as in-memory collections and a dispatcher; what
the specification leaves open (which documents a collection rejects, which
deliveries fail) is a parameter, `Env`.  Every call a handler makes to one of
these collaborators is appended to `World.calls`, the way a test double counts
calls.
-/

namespace AAT

/-- Identifiers (`_id`, `req.user.id`, `req.params.submissionId`) are strings. -/
abbrev Id := String

/-! ## Data model -/

/-- The principal put on the request by the authentication middleware
(`req.user`); `id` may be missing. -/
structure ReqUser where
  id : Option Id
  role : String
  deriving DecidableEq, Repr

/-- An Express request: `req.user`, `req.params`, `req.body`. -/
structure Request (π β : Type) where
  user : Option ReqUser
  params : π
  body : β

/-- Body of a create-AAT1 request.  `facultyId` stands for a field the client may
add to the body; the handler does not destructure it. -/
structure AAT1Body where
  courseLink : String
  deadline : String
  facultyId : Option Id
  deriving DecidableEq, Repr

/-- Body of a create-AAT2 request (`facultyId` as in `AAT1Body`). -/
structure AAT2Body where
  title : String
  questions : List String
  startTime : String
  endTime : String
  duration : Nat
  facultyId : Option Id
  deriving DecidableEq, Repr

/-- Body of a create-remedial-session request (`facultyId` as in `AAT1Body`). -/
structure RemedialSessionBody where
  title : String
  description : String
  startTime : String
  endTime : String
  duration : Nat
  link : String
  students : List Id
  facultyId : Option Id
  deriving DecidableEq, Repr

/-- Body of a grading request; `grade` may be missing. -/
structure GradeBody where
  grade : Option String
  deriving DecidableEq, Repr

/-- Route parameters of a grading request. -/
structure GradeParams where
  submissionId : Id
  deriving DecidableEq, Repr

/-- The object literal handed to `AAT1.create`. -/
structure AAT1Doc where
  courseLink : String
  deadline : String
  facultyId : Id
  deriving DecidableEq, Repr

/-- A persisted AAT1 record. -/
structure AAT1 where
  _id : Id
  courseLink : String
  deadline : String
  facultyId : Id
  deriving DecidableEq, Repr

/-- The object literal handed to `AAT2.create`. -/
structure AAT2Doc where
  title : String
  questions : List String
  startTime : String
  endTime : String
  duration : Nat
  facultyId : Id
  deriving DecidableEq, Repr

/-- A persisted AAT2 record. -/
structure AAT2 where
  _id : Id
  title : String
  questions : List String
  startTime : String
  endTime : String
  duration : Nat
  facultyId : Id
  deriving DecidableEq, Repr

/-- The object literal handed to `RemedialSession.create`. -/
structure RemedialSessionDoc where
  title : String
  description : String
  startTime : String
  endTime : String
  duration : Nat
  link : String
  facultyId : Id
  students : List Id
  deriving DecidableEq, Repr

/-- A persisted remedial session. -/
structure RemedialSession where
  _id : Id
  title : String
  description : String
  startTime : String
  endTime : String
  duration : Nat
  link : String
  facultyId : Id
  students : List Id
  deriving DecidableEq, Repr

/-- A directory entry (user record). -/
structure User where
  _id : Id
  name : String
  email : String
  role : String
  deriving DecidableEq, Repr

/-- The projection `.select("email")` of a user record. -/
structure UserEmail where
  _id : Id
  email : String
  deriving DecidableEq, Repr

/-- A student's submission against an AAT1. -/
structure StudentAAT1 where
  _id : Id
  studentId : Id
  aat1Id : Id
  certificate : String
  grade : Option String
  createdAt : Nat
  deriving DecidableEq, Repr

/-- The result of `.populate('studentId', 'name')` on one reference: the
referenced user's `_id` and `name`. -/
structure StudentRef where
  _id : Id
  name : String
  deriving DecidableEq, Repr

/-- The result of `.populate('aat1Id', 'courseLink')` on one reference. -/
structure AAT1Ref where
  _id : Id
  courseLink : String
  deriving DecidableEq, Repr

/-- A submission after both `populate` calls: each reference is replaced by the
referenced document, or by `null` (`none`) when it does not resolve. -/
structure PopulatedSubmission where
  _id : Id
  studentId : Option StudentRef
  aat1Id : Option AAT1Ref
  certificate : String
  grade : Option String
  createdAt : Nat
  deriving DecidableEq, Repr

/-- One element of `formattedSubmissions`. -/
structure SubmissionView where
  _id : Id
  studentName : String
  courseTitle : String
  certificate : String
  grade : Option String
  submittedAt : Nat
  deriving DecidableEq, Repr

/-- What `res.json(...)` is given. -/
inductive Payload where
  | message (message : String) (error : Option String)
  | aat1 (record : AAT1)
  | aat2 (record : AAT2)
  | remedialSession (record : RemedialSession)
  | submissions (views : List SubmissionView)
  deriving DecidableEq, Repr

/-- The HTTP response: `res.status(status).json(json)`. -/
structure Response where
  status : Nat
  json : Payload
  deriving DecidableEq, Repr

/-- The collections behind the Mongoose models, with the counter from which
fresh `_id`s are drawn. -/
structure Db where
  aat1s : List AAT1
  aat2s : List AAT2
  remedialSessions : List RemedialSession
  users : List User
  submissions : List StudentAAT1
  nextId : Nat
  deriving DecidableEq, Repr

/-- One call of a handler to a collaborator, with its outcome where it has one
(`ok = false`: the write was rejected, or the delivery failed). -/
inductive Call where
  | aat1Create (doc : AAT1Doc) (ok : Bool)
  | aat2Create (doc : AAT2Doc) (ok : Bool)
  | remedialSessionCreate (doc : RemedialSessionDoc) (ok : Bool)
  | userFind (ids : List Id)
  | sendEmail (recipient subject text : String) (ok : Bool)
  | studentAAT1Find
  | studentAAT1FindById (id : Id)
  | studentAAT1Save (doc : StudentAAT1) (ok : Bool)
  deriving DecidableEq, Repr

/-- The collections and the log of collaborator calls. -/
structure World where
  db : Db
  calls : List Call
  deriving DecidableEq, Repr

/-- What the absent models and mailer decide: for each collection, the error
message with which it rejects a document (`none`: the write is accepted), and
for the mailer, whether a delivery succeeds. -/
structure Env where
  aat1Error : AAT1Doc → Option String
  aat2Error : AAT2Doc → Option String
  remedialSessionError : RemedialSessionDoc → Option String
  saveError : StudentAAT1 → Option String
  delivers : String → String → String → Bool

/-! ## Collaborators -/

/-- Modelled from the spec: the Assessment Store for AAT1 (`models/AAT1.js` is
absent).  `create` either fails with a storage error and persists nothing, or
persists exactly one record, the document with a generated identifier, and
returns it. -/
def AAT1.create (env : Env) (doc : AAT1Doc) (w : World) : World × Except String AAT1 :=
  match env.aat1Error doc with
  | some e => ({ w with calls := w.calls ++ [Call.aat1Create doc false] }, Except.error e)
  | none =>
    let record : AAT1 :=
      { _id := toString w.db.nextId, courseLink := doc.courseLink, deadline := doc.deadline,
        facultyId := doc.facultyId }
    ({ db := { w.db with aat1s := w.db.aat1s ++ [record], nextId := w.db.nextId + 1 },
       calls := w.calls ++ [Call.aat1Create doc true] }, Except.ok record)

/-- Modelled from the spec: the Assessment Store for AAT2 (`models/AAT2.js` is
absent), as `AAT1.create`. -/
def AAT2.create (env : Env) (doc : AAT2Doc) (w : World) : World × Except String AAT2 :=
  match env.aat2Error doc with
  | some e => ({ w with calls := w.calls ++ [Call.aat2Create doc false] }, Except.error e)
  | none =>
    let record : AAT2 :=
      { _id := toString w.db.nextId, title := doc.title, questions := doc.questions,
        startTime := doc.startTime, endTime := doc.endTime, duration := doc.duration,
        facultyId := doc.facultyId }
    ({ db := { w.db with aat2s := w.db.aat2s ++ [record], nextId := w.db.nextId + 1 },
       calls := w.calls ++ [Call.aat2Create doc true] }, Except.ok record)

/-- Modelled from the spec: the Remedial Session Store
(`models/RemedialSession.js` is absent), as `AAT1.create`. -/
def RemedialSession.create (env : Env) (doc : RemedialSessionDoc) (w : World) :
    World × Except String RemedialSession :=
  match env.remedialSessionError doc with
  | some e =>
    ({ w with calls := w.calls ++ [Call.remedialSessionCreate doc false] }, Except.error e)
  | none =>
    let record : RemedialSession :=
      { _id := toString w.db.nextId, title := doc.title, description := doc.description,
        startTime := doc.startTime, endTime := doc.endTime, duration := doc.duration,
        link := doc.link, facultyId := doc.facultyId, students := doc.students }
    ({ db := { w.db with remedialSessions := w.db.remedialSessions ++ [record],
                         nextId := w.db.nextId + 1 },
       calls := w.calls ++ [Call.remedialSessionCreate doc true] }, Except.ok record)

/-- Modelled from the spec: the Directory Service batch lookup
`User.find({ _id: { $in: ids } }).select("email")` (`models/User.js` is absent):
the entries whose id is among `ids`, ids that resolve to nothing being
omitted. -/
def User.find (ids : List Id) (w : World) : World × List UserEmail :=
  ({ w with calls := w.calls ++ [Call.userFind ids] },
   (w.db.users.filter (fun u => ids.contains u._id)).map
     (fun u => { _id := u._id, email := u.email }))

/-- Modelled from the spec: the Notification Dispatcher `sendEmail`
(`utils/emailUtils.js` is absent), `send(recipientEmail, subject, body)` with
outcome success or delivery failure.  The controller does not await the call,
so the outcome never reaches the handler; it is kept in the call log only. -/
def sendEmail (env : Env) (recipient subject text : String) (w : World) : World :=
  { w with calls :=
      w.calls ++ [Call.sendEmail recipient subject text (env.delivers recipient subject text)] }

/-- Modelled from the spec: reading the Submission Store, `StudentAAT1.find()`
(`models/StudentAAT1.js` is absent): every stored submission. -/
def StudentAAT1.find (w : World) : World × List StudentAAT1 :=
  ({ w with calls := w.calls ++ [Call.studentAAT1Find] }, w.db.submissions)

/-- Modelled from the spec: `StudentAAT1.findById`, the submission with the given
id, or `null`. -/
def StudentAAT1.findById (id : Id) (w : World) : World × Option StudentAAT1 :=
  ({ w with calls := w.calls ++ [Call.studentAAT1FindById id] },
   w.db.submissions.find? (fun s => s._id == id))

/-- Writing a document back over the stored record that has its `_id` (the first
one, should several share it). -/
def replaceById (doc : StudentAAT1) : List StudentAAT1 → List StudentAAT1
  | [] => []
  | s :: rest => if s._id == doc._id then doc :: rest else s :: replaceById doc rest

/-- Modelled from the spec: `submission.save()` on a document loaded from the
Submission Store: either fails with a storage error and changes nothing, or
persists the document in place of the stored record with the same `_id`. -/
def StudentAAT1.save (env : Env) (doc : StudentAAT1) (w : World) : World × Except String Unit :=
  match env.saveError doc with
  | some e => ({ w with calls := w.calls ++ [Call.studentAAT1Save doc false] }, Except.error e)
  | none =>
    ({ db := { w.db with submissions := replaceById doc w.db.submissions },
       calls := w.calls ++ [Call.studentAAT1Save doc true] }, Except.ok ())

/-- Modelled from the spec: `.populate('studentId', 'name')` and
`.populate('aat1Id', 'courseLink')` on one submission: each reference is
replaced by the document it names, `null` when there is none. -/
def populate (db : Db) (s : StudentAAT1) : PopulatedSubmission :=
  { _id := s._id,
    studentId := (db.users.find? (fun u => u._id == s.studentId)).map
      (fun u => { _id := u._id, name := u.name }),
    aat1Id := (db.aat1s.find? (fun a => a._id == s.aat1Id)).map
      (fun a => { _id := a._id, courseLink := a.courseLink }),
    certificate := s.certificate,
    grade := s.grade,
    createdAt := s.createdAt }

/-- Modelled from the spec: `.sort({ createdAt: -1 })`, creation time
descending. -/
def sortByCreatedAtDesc (l : List PopulatedSubmission) : List PopulatedSubmission :=
  l.insertionSort (fun a b => a.createdAt ≥ b.createdAt)

/-! ## The controller -/

/-- JavaScript `x || "Unknown"` on an optional string: the fallback is taken when
`x` is `undefined` or the empty string. -/
def orUnknown : Option String → String
  | none => "Unknown"
  | some s => if s = "" then "Unknown" else s

/-- The template literal of the invitation mail. -/
def invitationText (title description startTime endTime : String) (duration : Nat)
    (link : String) : String :=
  "You have been invited to a remedial session. Title: " ++ title ++
  ", Description: " ++ description ++ ", Start Time: " ++ startTime ++
  ", End Time: " ++ endTime ++ ", Duration: " ++ toString duration ++
  " minutes, Link: " ++ link

/-- `createAAT1`. -/
def createAAT1 (env : Env) (req : Request Unit AAT1Body) (w : World) : World × Response :=
  match req.user.bind (fun u => u.id) with
  | none => (w, ⟨400, Payload.message "Faculty ID missing. Authentication failed." none⟩)
  | some facultyId =>
    if facultyId = "" then
      (w, ⟨400, Payload.message "Faculty ID missing. Authentication failed." none⟩)
    else
      match AAT1.create env
          { courseLink := req.body.courseLink, deadline := req.body.deadline,
            facultyId := facultyId } w with
      | (w1, Except.ok aat1) => (w1, ⟨201, Payload.aat1 aat1⟩)
      | (w1, Except.error e) => (w1, ⟨500, Payload.message "Failed to create AAT1" (some e)⟩)

/-- `createAAT2`. -/
def createAAT2 (env : Env) (req : Request Unit AAT2Body) (w : World) : World × Response :=
  match req.user.bind (fun u => u.id) with
  | none => (w, ⟨400, Payload.message "Faculty ID missing. Authentication failed." none⟩)
  | some facultyId =>
    if facultyId = "" then
      (w, ⟨400, Payload.message "Faculty ID missing. Authentication failed." none⟩)
    else
      match AAT2.create env
          { title := req.body.title, questions := req.body.questions,
            startTime := req.body.startTime, endTime := req.body.endTime,
            duration := req.body.duration, facultyId := facultyId } w with
      | (w1, Except.ok aat2) => (w1, ⟨201, Payload.aat2 aat2⟩)
      | (w1, Except.error e) => (w1, ⟨500, Payload.message "Failed to create AAT2" (some e)⟩)

/-- `createRemedialSession`. -/
def createRemedialSession (env : Env) (req : Request Unit RemedialSessionBody) (w : World) :
    World × Response :=
  match req.user.bind (fun u => u.id) with
  | none => (w, ⟨400, Payload.message "Faculty ID missing. Authentication failed." none⟩)
  | some facultyId =>
    if facultyId = "" then
      (w, ⟨400, Payload.message "Faculty ID missing. Authentication failed." none⟩)
    else
      match RemedialSession.create env
          { title := req.body.title, description := req.body.description,
            startTime := req.body.startTime, endTime := req.body.endTime,
            duration := req.body.duration, link := req.body.link,
            facultyId := facultyId, students := req.body.students } w with
      | (w1, Except.error e) =>
        (w1, ⟨500, Payload.message "Failed to create remedial session" (some e)⟩)
      | (w1, Except.ok remedialSession) =>
        let found := User.find req.body.students w1
        let w3 := found.2.foldl
          (fun acc student =>
            sendEmail env student.email "Remedial Session Notification"
              (invitationText req.body.title req.body.description req.body.startTime
                req.body.endTime req.body.duration req.body.link) acc)
          found.1
        (w3, ⟨201, Payload.remedialSession remedialSession⟩)

/-- The arrow function mapped over `submissions` in `getAAT1Submissions`. -/
def formatSubmission (sub : PopulatedSubmission) : SubmissionView :=
  { _id := sub._id,
    studentName := orUnknown (sub.studentId.map (fun u => u.name)),
    courseTitle := orUnknown (sub.aat1Id.map (fun a => a.courseLink)),
    certificate := sub.certificate,
    grade := sub.grade,
    submittedAt := sub.createdAt }

/-- `getAAT1Submissions`. -/
def getAAT1Submissions (w : World) : World × Response :=
  let found := StudentAAT1.find w
  let submissions := sortByCreatedAtDesc (found.2.map (populate w.db))
  (found.1, ⟨200, Payload.submissions (submissions.map formatSubmission)⟩)

/-- `gradeAAT1Submission`. -/
def gradeAAT1Submission (env : Env) (req : Request GradeParams GradeBody) (w : World) :
    World × Response :=
  match StudentAAT1.findById req.params.submissionId w with
  | (w1, none) => (w1, ⟨404, Payload.message "Submission not found" none⟩)
  | (w1, some submission) =>
    match StudentAAT1.save env { submission with grade := req.body.grade } w1 with
    | (w2, Except.ok _) => (w2, ⟨200, Payload.message "Grade updated successfully" none⟩)
    | (w2, Except.error e) => (w2, ⟨500, Payload.message "Failed to update grade" (some e)⟩)

/-! ## Observations on the call log -/

/-- Whether a call is a directory lookup. -/
def Call.isLookup : Call → Bool
  | Call.userFind _ => true
  | _ => false

/-- Whether a call is a notification dispatch. -/
def Call.isDispatch : Call → Bool
  | Call.sendEmail _ _ _ _ => true
  | _ => false

/-- Whether a call is a notification dispatch that succeeded. -/
def Call.isDelivered : Call → Bool
  | Call.sendEmail _ _ _ ok => ok
  | _ => false

/-- The caller identity is missing: `req.user` is absent, or `req.user.id` is
absent or empty. -/
def identityMissing : Option ReqUser → Bool
  | none => true
  | some u =>
    match u.id with
    | none => true
    | some s => s == ""

/-- The rejection sent when the caller identity is missing. -/
def unauthenticated : Response :=
  ⟨400, Payload.message "Faculty ID missing. Authentication failed." none⟩

/-- The calls made since an earlier world. -/
def callsSince (before after : World) : List Call :=
  after.calls.drop before.calls.length

/-- The directory entries an invitee list resolves to. -/
def resolved (db : Db) (students : List Id) : List User :=
  db.users.filter (fun x => decide (x._id ∈ students))

/-- The dispatch call the handler makes for one resolved entry of a request. -/
def invitationCall (env : Env) (b : RemedialSessionBody) (x : User) : Call :=
  Call.sendEmail x.email "Remedial Session Notification"
    (invitationText b.title b.description b.startTime b.endTime b.duration b.link)
    (env.delivers x.email "Remedial Session Notification"
      (invitationText b.title b.description b.startTime b.endTime b.duration b.link))

/-- Whether the delivery of a request's invitation to an entry fails. -/
def deliveryFails (env : Env) (b : RemedialSessionBody) (x : User) : Bool :=
  !env.delivers x.email "Remedial Session Notification"
    (invitationText b.title b.description b.startTime b.endTime b.duration b.link)

/-! ## Sample data -/

/-- A store that accepts every write and a mailer that delivers every message. -/
def acceptAll : Env :=
  { aat1Error := fun _ => none,
    aat2Error := fun _ => none,
    remedialSessionError := fun _ => none,
    saveError := fun _ => none,
    delivers := fun _ _ _ => true }

/-- A store that rejects every write and a mailer that delivers nothing. -/
def rejectAll : Env :=
  { aat1Error := fun _ => some "validation failed",
    aat2Error := fun _ => some "validation failed",
    remedialSessionError := fun _ => some "validation failed",
    saveError := fun _ => some "validation failed",
    delivers := fun _ _ _ => false }

/-- A store that accepts every write and a mailer that cannot reach one
address. -/
def bouncing : Env :=
  { acceptAll with delivers := fun recipient _ _ => recipient != "ravi@campus.edu" }

/-- A store whose submission collection rejects the grade "B" and accepts every
other write. -/
def rejectsB : Env :=
  { acceptAll with
    saveError := fun doc => if doc.grade = some "B" then some "validation failed" else none }

/-- A faculty principal. -/
def faculty : ReqUser := { id := some "f1", role := "faculty" }

/-- A small campus: two students, one assessment and two submissions, stored
oldest first. -/
def campus : World :=
  { db :=
      { aat1s := [⟨"a1", "https://courses.example/algebra", "2025-03-01", "f1"⟩],
        aat2s := [],
        remedialSessions := [],
        users := [⟨"s1", "Asha", "asha@campus.edu", "student"⟩,
                  ⟨"s2", "Ravi", "ravi@campus.edu", "student"⟩],
        submissions := [⟨"sub1", "s1", "a1", "cert-asha.pdf", none, 100⟩,
                        ⟨"sub2", "s2", "a1", "cert-ravi.pdf", some "B", 200⟩],
        nextId := 7 },
    calls := [] }

/-- A session body inviting both students, with a `facultyId` of the client's
own choosing. -/
def sessionBody : RemedialSessionBody :=
  { title := "Algebra", description := "Revision", startTime := "10:00", endTime := "11:00",
    duration := 60, link := "https://meet.example/x", students := ["s1", "s2"],
    facultyId := some "intruder" }

/-- A session body inviting one id that is in no directory entry. -/
def ghostBody : RemedialSessionBody :=
  { sessionBody with students := ["s9"] }

/-- A world in which a submission refers to a student whose stored name is the
empty string and to an assessment whose stored course link is the empty string;
both references resolve. -/
def blankLabels : World :=
  { db :=
      { aat1s := [⟨"a2", "", "2025-04-01", "f1"⟩],
        aat2s := [],
        remedialSessions := [],
        users := [⟨"s3", "", "meera@campus.edu", "student"⟩],
        submissions := [⟨"sub3", "s3", "a2", "cert-meera.pdf", none, 300⟩],
        nextId := 0 },
    calls := [] }

/-- A create-AAT1 body with a `facultyId` of the client's own choosing. -/
def aat1Body : AAT1Body :=
  { courseLink := "https://courses.example/geometry", deadline := "2025-05-01",
    facultyId := some "intruder" }

/-- A create-AAT2 body with a `facultyId` of the client's own choosing. -/
def aat2Body : AAT2Body :=
  { title := "Quiz 1", questions := ["q1", "q2"], startTime := "09:00", endTime := "09:30",
    duration := 30, facultyId := some "intruder" }

/-- The first submission of `campus`. -/
def firstSubmission : StudentAAT1 :=
  ⟨"sub1", "s1", "a1", "cert-asha.pdf", none, 100⟩

/-! ## Helper lemmas -/

/-- The invitation loop only appends dispatch calls, one per element, in order. -/
theorem foldl_sendEmail (env : Env) (subject text : String) (l : List UserEmail) (w : World) :
    l.foldl (fun acc student => sendEmail env student.email subject text acc) w =
      { w with calls := w.calls ++ l.map (fun student =>
          Call.sendEmail student.email subject text
            (env.delivers student.email subject text)) } := by
  induction l generalizing w with
  | nil => simp
  | cons x xs ih =>
    rw [List.foldl_cons, ih]
    simp [sendEmail]

/-- The whole effect of an accepted `createRemedialSession`. -/
theorem createRemedialSession_accepted (env : Env) (w : World) (u : ReqUser) (fid : Id)
    (b : RemedialSessionBody) (hid : u.id = some fid) (hne : fid ≠ "")
    (hok : env.remedialSessionError
      ⟨b.title, b.description, b.startTime, b.endTime, b.duration, b.link, fid,
        b.students⟩ = none) :
    createRemedialSession env ⟨some u, (), b⟩ w =
      ({ db := { w.db with
            remedialSessions := w.db.remedialSessions ++
              [⟨toString w.db.nextId, b.title, b.description, b.startTime, b.endTime,
                b.duration, b.link, fid, b.students⟩],
            nextId := w.db.nextId + 1 },
         calls := w.calls ++
           [Call.remedialSessionCreate
              ⟨b.title, b.description, b.startTime, b.endTime, b.duration, b.link, fid,
                b.students⟩ true,
            Call.userFind b.students] ++
           (w.db.users.filter (fun x => decide (x._id ∈ b.students))).map (fun x =>
             Call.sendEmail x.email "Remedial Session Notification"
               (invitationText b.title b.description b.startTime b.endTime b.duration b.link)
               (env.delivers x.email "Remedial Session Notification"
                 (invitationText b.title b.description b.startTime b.endTime b.duration
                   b.link))) },
       ⟨201, Payload.remedialSession
          ⟨toString w.db.nextId, b.title, b.description, b.startTime, b.endTime,
            b.duration, b.link, fid, b.students⟩⟩) := by
  simp [createRemedialSession, hid, hne, RemedialSession.create, hok, foldl_sendEmail,
    User.find, List.map_map, Function.comp_def]

/-- Writing back over a list split at the first record with the document's id. -/
theorem replaceById_split (doc s : StudentAAT1) (pre post : List StudentAAT1)
    (hpre : ∀ x ∈ pre, x._id ≠ doc._id) (hs : s._id = doc._id) :
    replaceById doc (pre ++ s :: post) = pre ++ doc :: post := by
  induction pre with
  | nil => simp [replaceById, hs]
  | cons x xs ih =>
    have hx : x._id ≠ doc._id := hpre x (List.mem_cons_self _ _)
    have hxs : ∀ y ∈ xs, y._id ≠ doc._id := fun y hy => hpre y (List.mem_cons_of_mem _ hy)
    simp [replaceById, hx, ih hxs]

/-- A successful lookup splits the collection at the record it returns. -/
theorem find_split (id : Id) (s : StudentAAT1) (l : List StudentAAT1)
    (hfind : l.find? (fun x => x._id == id) = some s) :
    s._id = id ∧ ∃ pre post, l = pre ++ s :: post ∧ ∀ x ∈ pre, x._id ≠ id := by
  rw [List.find?_eq_some] at hfind
  obtain ⟨hs, pre, post, hl, hpre⟩ := hfind
  refine ⟨by simpa using hs, pre, post, hl, ?_⟩
  intro x hx
  simpa using hpre x hx

/-- Looking up the id of the first of a split list returns that record. -/
theorem find_of_split (id : Id) (s : StudentAAT1) (pre post : List StudentAAT1)
    (hs : s._id = id) (hpre : ∀ x ∈ pre, x._id ≠ id) :
    (pre ++ s :: post).find? (fun x => x._id == id) = some s := by
  rw [List.find?_eq_some]
  refine ⟨by simp [hs], pre, post, rfl, ?_⟩
  intro x hx
  simpa using hpre x hx

/-- Grading an id the collection does not hold: 404, nothing written. -/
theorem gradeAAT1Submission_missing (env : Env) (req : Request GradeParams GradeBody)
    (w : World)
    (hfind : w.db.submissions.find? (fun x => x._id == req.params.submissionId) = none) :
    gradeAAT1Submission env req w =
      ({ w with calls := w.calls ++ [Call.studentAAT1FindById req.params.submissionId] },
       ⟨404, Payload.message "Submission not found" none⟩) := by
  simp only [gradeAAT1Submission, StudentAAT1.findById, hfind]

/-- Grading an existing submission when the store accepts the write. -/
theorem gradeAAT1Submission_saved (env : Env) (req : Request GradeParams GradeBody)
    (w : World) (s : StudentAAT1)
    (hfind : w.db.submissions.find? (fun x => x._id == req.params.submissionId) = some s)
    (hok : env.saveError { s with grade := req.body.grade } = none) :
    gradeAAT1Submission env req w =
      ({ db := { w.db with
            submissions := replaceById { s with grade := req.body.grade } w.db.submissions },
         calls := w.calls ++ [Call.studentAAT1FindById req.params.submissionId,
           Call.studentAAT1Save { s with grade := req.body.grade } true] },
       ⟨200, Payload.message "Grade updated successfully" none⟩) := by
  simp [gradeAAT1Submission, StudentAAT1.findById, hfind, StudentAAT1.save, hok]

/-- Grading an existing submission when the store rejects the write. -/
theorem gradeAAT1Submission_rejected (env : Env) (req : Request GradeParams GradeBody)
    (w : World) (s : StudentAAT1) (e : String)
    (hfind : w.db.submissions.find? (fun x => x._id == req.params.submissionId) = some s)
    (herr : env.saveError { s with grade := req.body.grade } = some e) :
    gradeAAT1Submission env req w =
      ({ w with
         calls := w.calls ++ [Call.studentAAT1FindById req.params.submissionId,
           Call.studentAAT1Save { s with grade := req.body.grade } false] },
       ⟨500, Payload.message "Failed to update grade" (some e)⟩) := by
  simp [gradeAAT1Submission, StudentAAT1.findById, hfind, StudentAAT1.save, herr]

/-- The calls an accepted `createRemedialSession` makes: the write, the directory
lookup, then one dispatch per resolved entry. -/
theorem callsSince_createRemedialSession (env : Env) (w : World) (u : ReqUser) (fid : Id)
    (b : RemedialSessionBody) (hid : u.id = some fid) (hne : fid ≠ "")
    (hok : env.remedialSessionError
      ⟨b.title, b.description, b.startTime, b.endTime, b.duration, b.link, fid,
        b.students⟩ = none) :
    callsSince w (createRemedialSession env ⟨some u, (), b⟩ w).1 =
      [Call.remedialSessionCreate
          ⟨b.title, b.description, b.startTime, b.endTime, b.duration, b.link, fid,
            b.students⟩ true,
        Call.userFind b.students] ++ (resolved w.db b.students).map (invitationCall env b) := by
  rw [createRemedialSession_accepted env w u fid b hid hne hok]
  simp [callsSince, resolved, invitationCall, Function.comp_def]

/-- Every entry either has its delivery counted as a success or as a failure. -/
theorem countP_delivered_add_fails (env : Env) (b : RemedialSessionBody) (l : List User) :
    (l.map (invitationCall env b)).countP Call.isDelivered + l.countP (deliveryFails env b) =
      l.length := by
  induction l with
  | nil => simp
  | cons x xs ih =>
    cases hx : env.delivers x.email "Remedial Session Notification"
        (invitationText b.title b.description b.startTime b.endTime b.duration b.link) <;>
      simp [List.countP_cons, invitationCall, deliveryFails, Call.isDelivered, hx] at ih ⊢ <;>
      omega

/-- Distinct invitee ids that each name exactly one directory entry resolve to as
many entries as there are invitees. -/
theorem length_resolved_of_unique (users : List User) (students : List Id)
    (hnodup : students.Nodup)
    (hone : ∀ i ∈ students, (users.map (fun x => x._id)).count i = 1) :
    (users.filter (fun x => decide (x._id ∈ students))).length = students.length := by
  induction students with
  | nil => simp
  | cons i rest ih =>
    have hi : i ∉ rest := (List.nodup_cons.mp hnodup).1
    have hrest := ih (List.nodup_cons.mp hnodup).2
      (fun j hj => hone j (List.mem_cons_of_mem _ hj))
    have hcount : users.countP (fun x => decide (x._id = i)) = 1 := by
      have h1 := hone i (List.mem_cons_self _ _)
      rw [List.count, List.countP_map] at h1
      have h2 : (fun x : User => decide (x._id = i)) = ((fun y => y == i) ∘ fun x => x._id) := by
        funext x
        by_cases hx : x._id = i <;> simp [hx]
      rw [h2]
      exact h1
    have hsplit : ∀ l : List User,
        (l.filter (fun x => decide (x._id ∈ i :: rest))).length =
          l.countP (fun x => decide (x._id = i)) +
            (l.filter (fun x => decide (x._id ∈ rest))).length := by
      intro l
      induction l with
      | nil => simp
      | cons y ys ihy =>
        by_cases hy : y._id = i
        · have hyr : y._id ∉ rest := by rw [hy]; exact hi
          simp [List.filter_cons, List.countP_cons, hy, hi] at ihy ⊢
          omega
        · by_cases hyr : y._id ∈ rest
          · simp [List.filter_cons, List.countP_cons, hy, hyr] at ihy ⊢
            omega
          · simp [List.filter_cons, List.countP_cons, hy, hyr] at ihy ⊢
            omega
    rw [hsplit users, hcount, hrest]
    simp [Nat.add_comm]

/-! ## Creation: ownership and rejection -/

/-- C1: when the caller identity is present and the store accepts the write,
`createAAT1`, `createAAT2` and `createRemedialSession` each persist exactly one
record (the collection grows by that record, every other collection is
untouched) and answer 201 with it; its `facultyId` is the caller's id, whatever
`facultyId` the body carries. -/
theorem create_facultyId_is_caller (env : Env) (w : World) (u : ReqUser) (fid : Id)
    (hid : u.id = some fid) (hne : fid ≠ "") :
    (∀ b : AAT1Body,
      env.aat1Error ⟨b.courseLink, b.deadline, fid⟩ = none →
      ∃ r : AAT1, r.facultyId = fid ∧
        (createAAT1 env ⟨some u, (), b⟩ w).2 = ⟨201, Payload.aat1 r⟩ ∧
        (createAAT1 env ⟨some u, (), b⟩ w).1.db =
          { w.db with aat1s := w.db.aat1s ++ [r], nextId := w.db.nextId + 1 }) ∧
    (∀ b : AAT2Body,
      env.aat2Error ⟨b.title, b.questions, b.startTime, b.endTime, b.duration, fid⟩ = none →
      ∃ r : AAT2, r.facultyId = fid ∧
        (createAAT2 env ⟨some u, (), b⟩ w).2 = ⟨201, Payload.aat2 r⟩ ∧
        (createAAT2 env ⟨some u, (), b⟩ w).1.db =
          { w.db with aat2s := w.db.aat2s ++ [r], nextId := w.db.nextId + 1 }) ∧
    (∀ b : RemedialSessionBody,
      env.remedialSessionError
        ⟨b.title, b.description, b.startTime, b.endTime, b.duration, b.link, fid,
          b.students⟩ = none →
      ∃ r : RemedialSession, r.facultyId = fid ∧
        (createRemedialSession env ⟨some u, (), b⟩ w).2 = ⟨201, Payload.remedialSession r⟩ ∧
        (createRemedialSession env ⟨some u, (), b⟩ w).1.db =
          { w.db with remedialSessions := w.db.remedialSessions ++ [r],
                      nextId := w.db.nextId + 1 }) := by
  refine ⟨?_, ?_, ?_⟩
  · intro b hok
    refine ⟨⟨toString w.db.nextId, b.courseLink, b.deadline, fid⟩, rfl, ?_, ?_⟩ <;>
      simp [createAAT1, hid, hne, AAT1.create, hok]
  · intro b hok
    refine ⟨⟨toString w.db.nextId, b.title, b.questions, b.startTime, b.endTime,
      b.duration, fid⟩, rfl, ?_, ?_⟩ <;>
      simp [createAAT2, hid, hne, AAT2.create, hok]
  · intro b hok
    refine ⟨⟨toString w.db.nextId, b.title, b.description, b.startTime, b.endTime,
      b.duration, b.link, fid, b.students⟩, rfl, ?_, ?_⟩ <;>
      simp [createRemedialSession_accepted env w u fid b hid hne hok]

/-- Witness for C1 on the sample campus: each handler stores the caller "f1" as
owner although the body names "intruder". -/
theorem create_facultyId_is_caller_witness :
    (∃ r : AAT1, r.facultyId = "f1" ∧
      (createAAT1 acceptAll ⟨some faculty, (), aat1Body⟩ campus).2 = ⟨201, Payload.aat1 r⟩ ∧
      (createAAT1 acceptAll ⟨some faculty, (), aat1Body⟩ campus).1.db =
        { campus.db with aat1s := campus.db.aat1s ++ [r], nextId := campus.db.nextId + 1 }) ∧
    (∃ r : AAT2, r.facultyId = "f1" ∧
      (createAAT2 acceptAll ⟨some faculty, (), aat2Body⟩ campus).2 = ⟨201, Payload.aat2 r⟩ ∧
      (createAAT2 acceptAll ⟨some faculty, (), aat2Body⟩ campus).1.db =
        { campus.db with aat2s := campus.db.aat2s ++ [r], nextId := campus.db.nextId + 1 }) ∧
    (∃ r : RemedialSession, r.facultyId = "f1" ∧
      (createRemedialSession acceptAll ⟨some faculty, (), sessionBody⟩ campus).2 =
        ⟨201, Payload.remedialSession r⟩ ∧
      (createRemedialSession acceptAll ⟨some faculty, (), sessionBody⟩ campus).1.db =
        { campus.db with remedialSessions := campus.db.remedialSessions ++ [r],
                         nextId := campus.db.nextId + 1 }) :=
  ⟨(create_facultyId_is_caller acceptAll campus faculty "f1" rfl (by decide)).1 aat1Body rfl,
   (create_facultyId_is_caller acceptAll campus faculty "f1" rfl (by decide)).2.1 aat2Body rfl,
   (create_facultyId_is_caller acceptAll campus faculty "f1" rfl (by decide)).2.2
     sessionBody rfl⟩

/-- C2: when the caller identity is missing, each of the three creation handlers
answers 400 and returns the world as it was: no collection changes and the call
log gains nothing (no write, no directory lookup, no dispatch). -/
theorem create_rejects_missing_identity (env : Env) (w : World) (user : Option ReqUser)
    (hmiss : identityMissing user = true) :
    (∀ b : AAT1Body, createAAT1 env ⟨user, (), b⟩ w = (w, unauthenticated)) ∧
    (∀ b : AAT2Body, createAAT2 env ⟨user, (), b⟩ w = (w, unauthenticated)) ∧
    (∀ b : RemedialSessionBody,
      createRemedialSession env ⟨user, (), b⟩ w = (w, unauthenticated)) ∧
    unauthenticated.status = 400 := by
  have key : user.bind (fun u => u.id) = none ∨ user.bind (fun u => u.id) = some "" := by
    cases user with
    | none => simp
    | some u =>
      cases hu : u.id with
      | none => simp [hu]
      | some s =>
        simp [identityMissing, hu] at hmiss
        simp [hu, hmiss]
  refine ⟨?_, ?_, ?_, rfl⟩ <;> intro b <;> rcases key with h | h <;>
    simp [createAAT1, createAAT2, createRemedialSession, h, unauthenticated]

/-- Witness for C2: a principal with an empty id is turned away by all three
handlers. -/
theorem create_rejects_missing_identity_witness :
    createAAT1 acceptAll ⟨some ⟨some "", "faculty"⟩, (), aat1Body⟩ campus =
        (campus, unauthenticated) ∧
      createAAT2 acceptAll ⟨some ⟨some "", "faculty"⟩, (), aat2Body⟩ campus =
        (campus, unauthenticated) ∧
      createRemedialSession acceptAll ⟨some ⟨some "", "faculty"⟩, (), sessionBody⟩ campus =
        (campus, unauthenticated) :=
  ⟨(create_rejects_missing_identity acceptAll campus (some ⟨some "", "faculty"⟩) rfl).1
     aat1Body,
   (create_rejects_missing_identity acceptAll campus (some ⟨some "", "faculty"⟩) rfl).2.1
     aat2Body,
   (create_rejects_missing_identity acceptAll campus (some ⟨some "", "faculty"⟩) rfl).2.2.1
     sessionBody⟩

/-- C7: when the caller identity is present and the session write is rejected,
`createRemedialSession` answers 500, the collections are as before (no session
is persisted), and the only collaborator call is the rejected write: no
directory lookup, no dispatch. -/
theorem createRemedialSession_write_failure (env : Env) (w : World) (u : ReqUser) (fid : Id)
    (b : RemedialSessionBody) (e : String) (hid : u.id = some fid) (hne : fid ≠ "")
    (herr : env.remedialSessionError
      ⟨b.title, b.description, b.startTime, b.endTime, b.duration, b.link, fid,
        b.students⟩ = some e) :
    (createRemedialSession env ⟨some u, (), b⟩ w).2 =
        ⟨500, Payload.message "Failed to create remedial session" (some e)⟩ ∧
      (createRemedialSession env ⟨some u, (), b⟩ w).1.db = w.db ∧
      (createRemedialSession env ⟨some u, (), b⟩ w).1.calls =
        w.calls ++ [Call.remedialSessionCreate
          ⟨b.title, b.description, b.startTime, b.endTime, b.duration, b.link, fid,
            b.students⟩ false] ∧
      ((createRemedialSession env ⟨some u, (), b⟩ w).1.calls.filter Call.isLookup =
        w.calls.filter Call.isLookup) ∧
      ((createRemedialSession env ⟨some u, (), b⟩ w).1.calls.filter Call.isDispatch =
        w.calls.filter Call.isDispatch) := by
  simp [createRemedialSession, hid, hne, RemedialSession.create, herr, Call.isLookup,
    Call.isDispatch]

/-- Witness for C7: the rejecting store. -/
theorem createRemedialSession_write_failure_witness :
    (createRemedialSession rejectAll ⟨some faculty, (), sessionBody⟩ campus).2 =
        ⟨500, Payload.message "Failed to create remedial session"
          (some "validation failed")⟩ ∧
      (createRemedialSession rejectAll ⟨some faculty, (), sessionBody⟩ campus).1.db =
        campus.db :=
  ⟨(createRemedialSession_write_failure rejectAll campus faculty "f1" sessionBody
      "validation failed" rfl (by decide) rfl).1,
   (createRemedialSession_write_failure rejectAll campus faculty "f1" sessionBody
      "validation failed" rfl (by decide) rfl).2.1⟩

/-! ## Remedial sessions: notification fan-out -/

/-- C6: an accepted `createRemedialSession` answers 201 and its dispatch calls
are, in directory order, one per directory entry whose id is in the invitee
list and no other: addressed to the entry's email, with subject "Remedial
Session Notification" and the invitation text, which contains the request's
title, description, start time, end time, duration and link.  With an empty
invitee list, or one that resolves to no entry, there is no dispatch call and
the answer is still 201. -/
theorem createRemedialSession_dispatches (env : Env) (w : World) (u : ReqUser) (fid : Id)
    (b : RemedialSessionBody) (hid : u.id = some fid) (hne : fid ≠ "")
    (hok : env.remedialSessionError
      ⟨b.title, b.description, b.startTime, b.endTime, b.duration, b.link, fid,
        b.students⟩ = none) :
    (createRemedialSession env ⟨some u, (), b⟩ w).2.status = 201 ∧
      (callsSince w (createRemedialSession env ⟨some u, (), b⟩ w).1).filter Call.isDispatch =
        (w.db.users.filter (fun x => decide (x._id ∈ b.students))).map (fun x =>
          Call.sendEmail x.email "Remedial Session Notification"
            (invitationText b.title b.description b.startTime b.endTime b.duration b.link)
            (env.delivers x.email "Remedial Session Notification"
              (invitationText b.title b.description b.startTime b.endTime b.duration
                b.link))) ∧
      (b.title.data <:+:
          (invitationText b.title b.description b.startTime b.endTime b.duration b.link).data ∧
        b.description.data <:+:
          (invitationText b.title b.description b.startTime b.endTime b.duration b.link).data ∧
        b.startTime.data <:+:
          (invitationText b.title b.description b.startTime b.endTime b.duration b.link).data ∧
        b.endTime.data <:+:
          (invitationText b.title b.description b.startTime b.endTime b.duration b.link).data ∧
        (toString b.duration).data <:+:
          (invitationText b.title b.description b.startTime b.endTime b.duration b.link).data ∧
        b.link.data <:+:
          (invitationText b.title b.description b.startTime b.endTime b.duration
            b.link).data) ∧
      (b.students = [] →
        (callsSince w (createRemedialSession env ⟨some u, (), b⟩ w).1).filter
          Call.isDispatch = []) ∧
      ((∀ x ∈ w.db.users, x._id ∉ b.students) →
        (callsSince w (createRemedialSession env ⟨some u, (), b⟩ w).1).filter
          Call.isDispatch = []) := by
  have hcalls := callsSince_createRemedialSession env w u fid b hid hne hok
  have hdisp : (callsSince w (createRemedialSession env ⟨some u, (), b⟩ w).1).filter
      Call.isDispatch = (resolved w.db b.students).map (invitationCall env b) := by
    rw [hcalls]
    simp [List.filter_cons, Call.isDispatch, List.filter_map, Function.comp_def,
      invitationCall]
  refine ⟨?_, ?_, ?_, ?_, ?_⟩
  · rw [createRemedialSession_accepted env w u fid b hid hne hok]
  · rw [hdisp]
    rfl
  · refine ⟨?_, ?_, ?_, ?_, ?_, ?_⟩
    · exact ⟨("You have been invited to a remedial session. Title: ").data,
        (", Description: " ++ b.description ++ ", Start Time: " ++ b.startTime ++ ", End Time: " ++ b.endTime ++ ", Duration: " ++ toString b.duration ++ " minutes, Link: " ++ b.link).data,
        by simp [invitationText, String.data_append]⟩
    · exact ⟨("You have been invited to a remedial session. Title: " ++ b.title ++ ", Description: ").data,
        (", Start Time: " ++ b.startTime ++ ", End Time: " ++ b.endTime ++ ", Duration: " ++ toString b.duration ++ " minutes, Link: " ++ b.link).data,
        by simp [invitationText, String.data_append]⟩
    · exact ⟨("You have been invited to a remedial session. Title: " ++ b.title ++ ", Description: " ++ b.description ++ ", Start Time: ").data,
        (", End Time: " ++ b.endTime ++ ", Duration: " ++ toString b.duration ++ " minutes, Link: " ++ b.link).data,
        by simp [invitationText, String.data_append]⟩
    · exact ⟨("You have been invited to a remedial session. Title: " ++ b.title ++ ", Description: " ++ b.description ++ ", Start Time: " ++ b.startTime ++ ", End Time: ").data,
        (", Duration: " ++ toString b.duration ++ " minutes, Link: " ++ b.link).data,
        by simp [invitationText, String.data_append]⟩
    · exact ⟨("You have been invited to a remedial session. Title: " ++ b.title ++ ", Description: " ++ b.description ++ ", Start Time: " ++ b.startTime ++ ", End Time: " ++ b.endTime ++ ", Duration: ").data,
        (" minutes, Link: " ++ b.link).data,
        by simp [invitationText, String.data_append]⟩
    · exact ⟨("You have been invited to a remedial session. Title: " ++ b.title ++ ", Description: " ++ b.description ++ ", Start Time: " ++ b.startTime ++ ", End Time: " ++ b.endTime ++ ", Duration: " ++ toString b.duration ++ " minutes, Link: ").data,
        ("").data,
        by simp [invitationText, String.data_append]⟩
  · intro hempty
    rw [hdisp]
    simp [resolved, hempty]
  · intro hghost
    rw [hdisp]
    have : resolved w.db b.students = [] := by
      simp only [resolved, List.filter_eq_nil_iff]
      intro x hx
      simpa using hghost x hx
    simp [this]

/-- Witness for C6 on the sample campus: both invitees resolve. -/
theorem createRemedialSession_dispatches_witness :
    (createRemedialSession acceptAll ⟨some faculty, (), sessionBody⟩ campus).2.status = 201 ∧
      (callsSince campus
          (createRemedialSession acceptAll ⟨some faculty, (), sessionBody⟩ campus).1).filter
        Call.isDispatch =
        (campus.db.users.filter (fun x => decide (x._id ∈ sessionBody.students))).map (fun x =>
          Call.sendEmail x.email "Remedial Session Notification"
            (invitationText sessionBody.title sessionBody.description sessionBody.startTime
              sessionBody.endTime sessionBody.duration sessionBody.link)
            (acceptAll.delivers x.email "Remedial Session Notification"
              (invitationText sessionBody.title sessionBody.description
                sessionBody.startTime sessionBody.endTime sessionBody.duration
                sessionBody.link))) :=
  ⟨(createRemedialSession_dispatches acceptAll campus faculty "f1" sessionBody rfl
      (by decide) rfl).1,
   (createRemedialSession_dispatches acceptAll campus faculty "f1" sessionBody rfl
      (by decide) rfl).2.1⟩

/-- C5 (amended): an accepted `createRemedialSession` answers 201 with a record
that lists every invitee of the request and is appended to the session
collection, whichever deliveries fail.  If the deliveries to `k` of the resolved
directory entries fail, the dispatch successes recorded number exactly the
resolved entries less `k`; that is the number of invitees less `k` when the
invitee ids are distinct and each names exactly one directory entry. -/
theorem createRemedialSession_delivery_failures (env : Env) (w : World) (u : ReqUser)
    (fid : Id) (b : RemedialSessionBody) (k : Nat) (hid : u.id = some fid) (hne : fid ≠ "")
    (hok : env.remedialSessionError
      ⟨b.title, b.description, b.startTime, b.endTime, b.duration, b.link, fid,
        b.students⟩ = none)
    (hk : (resolved w.db b.students).countP (deliveryFails env b) = k) :
    ∃ r : RemedialSession,
      (createRemedialSession env ⟨some u, (), b⟩ w).2 = ⟨201, Payload.remedialSession r⟩ ∧
      r.students = b.students ∧
      (createRemedialSession env ⟨some u, (), b⟩ w).1.db.remedialSessions =
        w.db.remedialSessions ++ [r] ∧
      (callsSince w (createRemedialSession env ⟨some u, (), b⟩ w).1).countP Call.isDelivered =
        (resolved w.db b.students).length - k ∧
      (b.students.Nodup →
        (∀ i ∈ b.students, (w.db.users.map (fun x => x._id)).count i = 1) →
        (callsSince w (createRemedialSession env ⟨some u, (), b⟩ w).1).countP
          Call.isDelivered = b.students.length - k) := by
  have hcalls := callsSince_createRemedialSession env w u fid b hid hne hok
  have hsum := countP_delivered_add_fails env b (resolved w.db b.students)
  have hcount : (callsSince w (createRemedialSession env ⟨some u, (), b⟩ w).1).countP
      Call.isDelivered = (resolved w.db b.students).length - k := by
    have hnone : ∀ (d : RemedialSessionDoc) (ids : List Id),
        [Call.remedialSessionCreate d true, Call.userFind ids].countP Call.isDelivered = 0 := by
      intro d ids
      simp [List.countP_cons, Call.isDelivered]
    rw [hcalls, List.countP_append, hnone]
    omega
  refine ⟨⟨toString w.db.nextId, b.title, b.description, b.startTime, b.endTime,
    b.duration, b.link, fid, b.students⟩, ?_, rfl, ?_, hcount, ?_⟩
  · rw [createRemedialSession_accepted env w u fid b hid hne hok]
  · rw [createRemedialSession_accepted env w u fid b hid hne hok]
  · intro hnodup hone
    rw [hcount]
    have := length_resolved_of_unique w.db.users b.students hnodup hone
    simp only [resolved]
    omega

/-- Witness for C5 (amended): one of the two deliveries bounces, one success is
recorded and the session is created with both invitees. -/
theorem createRemedialSession_delivery_failures_witness :
    ∃ r : RemedialSession,
      (createRemedialSession bouncing ⟨some faculty, (), sessionBody⟩ campus).2 =
        ⟨201, Payload.remedialSession r⟩ ∧
      r.students = ["s1", "s2"] ∧
      (callsSince campus
          (createRemedialSession bouncing ⟨some faculty, (), sessionBody⟩ campus).1).countP
        Call.isDelivered = 2 - 1 :=
  let ⟨r, h1, h2, _, h4, _⟩ :=
    createRemedialSession_delivery_failures bouncing campus faculty "f1" sessionBody 1 rfl
      (by decide) rfl (by decide)
  ⟨r, h1, h2, h4⟩

/-- Counterexample to C5 as stated: one invitee (N = 1) that is in no directory
entry, a mailer that never fails (k = 0); the session is created, and the
dispatch successes recorded number 0, not N − k = 1. -/
theorem createRemedialSession_successes_counterexample :
    (createRemedialSession acceptAll ⟨some faculty, (), ghostBody⟩ campus).2.status = 201 ∧
      ghostBody.students.length = 1 ∧
      (resolved campus.db ghostBody.students).countP (deliveryFails acceptAll ghostBody) = 0 ∧
      (callsSince campus
          (createRemedialSession acceptAll ⟨some faculty, (), ghostBody⟩ campus).1).countP
        Call.isDelivered = 0 ∧
      (callsSince campus
          (createRemedialSession acceptAll ⟨some faculty, (), ghostBody⟩ campus).1).countP
        Call.isDelivered ≠ ghostBody.students.length - 0 := by
  decide

/-! ## Grading -/

/-- C3: when no stored submission has the requested id, `gradeAAT1Submission`
answers 404 "Submission not found", which is not the storage-failure answer
(500), and the collections are exactly as before; the only collaborator call is
the lookup, so nothing is written. -/
theorem grade_unknown_submission (env : Env) (req : Request GradeParams GradeBody) (w : World)
    (hnone : ∀ s ∈ w.db.submissions, s._id ≠ req.params.submissionId) :
    (gradeAAT1Submission env req w).2 = ⟨404, Payload.message "Submission not found" none⟩ ∧
      (∀ e, (gradeAAT1Submission env req w).2 ≠
        ⟨500, Payload.message "Failed to update grade" (some e)⟩) ∧
      (gradeAAT1Submission env req w).1.db = w.db ∧
      (gradeAAT1Submission env req w).1.calls =
        w.calls ++ [Call.studentAAT1FindById req.params.submissionId] := by
  have hfind : w.db.submissions.find? (fun x => x._id == req.params.submissionId) = none := by
    rw [List.find?_eq_none]
    intro x hx
    simpa using hnone x hx
  rw [gradeAAT1Submission_missing env req w hfind]
  simp

/-- Witness for C3: no submission of the sample campus has id "sub9". -/
theorem grade_unknown_submission_witness :
    (gradeAAT1Submission acceptAll ⟨some faculty, ⟨"sub9"⟩, ⟨some "A"⟩⟩ campus).2 =
        ⟨404, Payload.message "Submission not found" none⟩ ∧
      (gradeAAT1Submission acceptAll ⟨some faculty, ⟨"sub9"⟩, ⟨some "A"⟩⟩ campus).1.db =
        campus.db :=
  ⟨(grade_unknown_submission acceptAll ⟨some faculty, ⟨"sub9"⟩, ⟨some "A"⟩⟩ campus
      (by decide)).1,
   (grade_unknown_submission acceptAll ⟨some faculty, ⟨"sub9"⟩, ⟨some "A"⟩⟩ campus
      (by decide)).2.2.1⟩

/-- C10: a successful `gradeAAT1Submission` on an existing submission rewrites
that one record with the new grade and the same `_id`, `studentId`, `aat1Id`,
`certificate` and `createdAt`; the records before and after it, and every other
collection, are unchanged, and the call log gains the lookup and the save only
(no dispatch). -/
theorem grade_changes_only_grade (env : Env) (req : Request GradeParams GradeBody) (w : World)
    (s : StudentAAT1)
    (hfind : (StudentAAT1.findById req.params.submissionId w).2 = some s)
    (hsucc : (gradeAAT1Submission env req w).2.status = 200) :
    ∃ pre post,
      w.db.submissions = pre ++ s :: post ∧
      (∀ x ∈ pre, x._id ≠ req.params.submissionId) ∧
      (gradeAAT1Submission env req w).1.db =
        { w.db with submissions :=
            pre ++ ⟨s._id, s.studentId, s.aat1Id, s.certificate, req.body.grade,
              s.createdAt⟩ :: post } ∧
      (gradeAAT1Submission env req w).1.calls =
        w.calls ++ [Call.studentAAT1FindById req.params.submissionId,
          Call.studentAAT1Save ⟨s._id, s.studentId, s.aat1Id, s.certificate, req.body.grade,
            s.createdAt⟩ true] ∧
      (gradeAAT1Submission env req w).1.calls.filter Call.isDispatch =
        w.calls.filter Call.isDispatch := by
  have hfind' : w.db.submissions.find? (fun x => x._id == req.params.submissionId) = some s :=
    hfind
  obtain ⟨hs, pre, post, hl, hpre⟩ := find_split _ _ _ hfind'
  cases herr : env.saveError { s with grade := req.body.grade } with
  | some e =>
    rw [gradeAAT1Submission_rejected env req w s e hfind' herr] at hsucc
    simp at hsucc
  | none =>
    refine ⟨pre, post, hl, hpre, ?_⟩
    rw [gradeAAT1Submission_saved env req w s hfind' herr]
    have hrep : replaceById { s with grade := req.body.grade } w.db.submissions =
        pre ++ { s with grade := req.body.grade } :: post := by
      rw [hl]
      exact replaceById_split _ s pre post (by simpa [hs] using hpre) rfl
    simp [hrep, Call.isDispatch]

/-- Witness for C10: grading the first submission of the sample campus. -/
theorem grade_changes_only_grade_witness :
    ∃ pre post,
      campus.db.submissions = pre ++ firstSubmission :: post ∧
      (gradeAAT1Submission acceptAll ⟨some faculty, ⟨"sub1"⟩, ⟨some "A"⟩⟩ campus).1.db =
        { campus.db with submissions :=
            pre ++ ⟨"sub1", "s1", "a1", "cert-asha.pdf", some "A", 100⟩ :: post } :=
  let ⟨pre, post, h1, _, h3, _, _⟩ :=
    grade_changes_only_grade acceptAll ⟨some faculty, ⟨"sub1"⟩, ⟨some "A"⟩⟩ campus
      firstSubmission rfl (by decide)
  ⟨pre, post, h1, h3⟩

/-- C4 (amended): grading overwrites.  If the submission exists and grading it
with `b` succeeds, then grading with `a` and then with `b` leaves the same collections as
grading once with `b`: the record carries grade `b` and the collection has as
many records as before.  Grading twice with the same grade leaves the same
collections and gives the same response as grading once, in every case. -/
theorem grade_is_overwrite (env : Env) (user : Option ReqUser) (id : Id)
    (a b : Option String) (w : World) :
    (∀ s : StudentAAT1,
      (StudentAAT1.findById id w).2 = some s →
      (gradeAAT1Submission env ⟨user, ⟨id⟩, ⟨b⟩⟩ w).2.status = 200 →
      (gradeAAT1Submission env ⟨user, ⟨id⟩, ⟨b⟩⟩
          (gradeAAT1Submission env ⟨user, ⟨id⟩, ⟨a⟩⟩ w).1).1.db =
        (gradeAAT1Submission env ⟨user, ⟨id⟩, ⟨b⟩⟩ w).1.db ∧
      (StudentAAT1.findById id
          (gradeAAT1Submission env ⟨user, ⟨id⟩, ⟨b⟩⟩
            (gradeAAT1Submission env ⟨user, ⟨id⟩, ⟨a⟩⟩ w).1).1).2 =
        some ⟨s._id, s.studentId, s.aat1Id, s.certificate, b, s.createdAt⟩ ∧
      (gradeAAT1Submission env ⟨user, ⟨id⟩, ⟨b⟩⟩
          (gradeAAT1Submission env ⟨user, ⟨id⟩, ⟨a⟩⟩ w).1).1.db.submissions.length =
        w.db.submissions.length) ∧
    ((gradeAAT1Submission env ⟨user, ⟨id⟩, ⟨a⟩⟩
          (gradeAAT1Submission env ⟨user, ⟨id⟩, ⟨a⟩⟩ w).1).1.db =
        (gradeAAT1Submission env ⟨user, ⟨id⟩, ⟨a⟩⟩ w).1.db ∧
      (gradeAAT1Submission env ⟨user, ⟨id⟩, ⟨a⟩⟩
          (gradeAAT1Submission env ⟨user, ⟨id⟩, ⟨a⟩⟩ w).1).2 =
        (gradeAAT1Submission env ⟨user, ⟨id⟩, ⟨a⟩⟩ w).2) := by
  constructor
  · intro s hfind hb
    have hfind' : w.db.submissions.find? (fun x => x._id == id) = some s := hfind
    obtain ⟨hs, pre, post, hl, hpre⟩ := find_split _ _ _ hfind'
    have hpre' : ∀ x ∈ pre, x._id ≠ s._id := by simpa [hs] using hpre
    have hokb : env.saveError { s with grade := b } = none := by
      cases herr : env.saveError { s with grade := b } with
      | none => rfl
      | some e =>
        rw [gradeAAT1Submission_rejected env ⟨user, ⟨id⟩, ⟨b⟩⟩ w s e hfind' herr] at hb
        simp at hb
    have hwb := gradeAAT1Submission_saved env ⟨user, ⟨id⟩, ⟨b⟩⟩ w s hfind' hokb
    have hrepb : replaceById { s with grade := b } w.db.submissions =
        pre ++ { s with grade := b } :: post := by
      rw [hl]
      exact replaceById_split _ s pre post hpre' rfl
    cases herr : env.saveError { s with grade := a } with
    | some e =>
      have hwa := gradeAAT1Submission_rejected env ⟨user, ⟨id⟩, ⟨a⟩⟩ w s e hfind' herr
      rw [hwa]
      have hwab := gradeAAT1Submission_saved env ⟨user, ⟨id⟩, ⟨b⟩⟩
        { w with calls := w.calls ++ [Call.studentAAT1FindById id,
            Call.studentAAT1Save { s with grade := a } false] } s hfind' hokb
      rw [hwab, hwb]
      simp only [hrepb]
      refine ⟨trivial, ?_, ?_⟩
      · exact find_of_split id _ pre post hs hpre
      · simp [hl]
    | none =>
      have hwa := gradeAAT1Submission_saved env ⟨user, ⟨id⟩, ⟨a⟩⟩ w s hfind' herr
      have hrepa : replaceById { s with grade := a } w.db.submissions =
          pre ++ { s with grade := a } :: post := by
        rw [hl]
        exact replaceById_split _ s pre post hpre' rfl
      rw [hwa]
      simp only [hrepa]
      have hfinda : (pre ++ { s with grade := a } :: post).find? (fun x => x._id == id) =
          some { s with grade := a } := find_of_split id _ pre post hs hpre
      have hwab := gradeAAT1Submission_saved env ⟨user, ⟨id⟩, ⟨b⟩⟩
        { db := { w.db with submissions := pre ++ { s with grade := a } :: post },
          calls := w.calls ++ [Call.studentAAT1FindById id,
            Call.studentAAT1Save { s with grade := a } true] }
        { s with grade := a } hfinda hokb
      rw [hwab, hwb]
      have hrepab : replaceById { s with grade := b } (pre ++ { s with grade := a } :: post) =
          pre ++ { s with grade := b } :: post :=
        replaceById_split _ _ pre post hpre' rfl
      simp only [hrepab, hrepb]
      refine ⟨trivial, ?_, ?_⟩
      · exact find_of_split id _ pre post hs hpre
      · simp [hl]
  · cases hfind : w.db.submissions.find? (fun x => x._id == id) with
    | none =>
      have h1 := gradeAAT1Submission_missing env ⟨user, ⟨id⟩, ⟨a⟩⟩ w hfind
      have h2 := gradeAAT1Submission_missing env ⟨user, ⟨id⟩, ⟨a⟩⟩
        { w with calls := w.calls ++ [Call.studentAAT1FindById id] } hfind
      rw [h1, h2]
      exact ⟨rfl, rfl⟩
    | some s =>
      obtain ⟨hs, pre, post, hl, hpre⟩ := find_split _ _ _ hfind
      have hpre' : ∀ x ∈ pre, x._id ≠ s._id := by simpa [hs] using hpre
      cases herr : env.saveError { s with grade := a } with
      | some e =>
        have h1 := gradeAAT1Submission_rejected env ⟨user, ⟨id⟩, ⟨a⟩⟩ w s e hfind herr
        have h2 := gradeAAT1Submission_rejected env ⟨user, ⟨id⟩, ⟨a⟩⟩
          { w with calls := w.calls ++ [Call.studentAAT1FindById id,
              Call.studentAAT1Save { s with grade := a } false] } s e hfind herr
        rw [h1, h2]
        exact ⟨rfl, rfl⟩
      | none =>
        have h1 := gradeAAT1Submission_saved env ⟨user, ⟨id⟩, ⟨a⟩⟩ w s hfind herr
        have hrepa : replaceById { s with grade := a } w.db.submissions =
            pre ++ { s with grade := a } :: post := by
          rw [hl]
          exact replaceById_split _ s pre post hpre' rfl
        rw [h1]
        simp only [hrepa]
        have hfinda : (pre ++ { s with grade := a } :: post).find? (fun x => x._id == id) =
            some { s with grade := a } := find_of_split id _ pre post hs hpre
        have h2 := gradeAAT1Submission_saved env ⟨user, ⟨id⟩, ⟨a⟩⟩
          { db := { w.db with submissions := pre ++ { s with grade := a } :: post },
            calls := w.calls ++ [Call.studentAAT1FindById id,
              Call.studentAAT1Save { s with grade := a } true] }
          { s with grade := a } hfinda herr
        rw [h2]
        have hrepaa : replaceById { s with grade := a }
            (pre ++ { s with grade := a } :: post) = pre ++ { s with grade := a } :: post :=
          replaceById_split _ _ pre post hpre' rfl
        simp only [hrepaa]
        exact ⟨trivial, trivial⟩

/-- Witness for C4: grading the first submission of the sample campus "A" and then
"B". -/
theorem grade_is_overwrite_witness :
    (gradeAAT1Submission acceptAll ⟨some faculty, ⟨"sub1"⟩, ⟨some "B"⟩⟩
        (gradeAAT1Submission acceptAll ⟨some faculty, ⟨"sub1"⟩, ⟨some "A"⟩⟩ campus).1).1.db =
      (gradeAAT1Submission acceptAll ⟨some faculty, ⟨"sub1"⟩, ⟨some "B"⟩⟩ campus).1.db ∧
    (StudentAAT1.findById "sub1"
        (gradeAAT1Submission acceptAll ⟨some faculty, ⟨"sub1"⟩, ⟨some "B"⟩⟩
          (gradeAAT1Submission acceptAll ⟨some faculty, ⟨"sub1"⟩, ⟨some "A"⟩⟩
            campus).1).1).2 =
      some ⟨"sub1", "s1", "a1", "cert-asha.pdf", some "B", 100⟩ :=
  ⟨((grade_is_overwrite acceptAll (some faculty) "sub1" (some "A") (some "B") campus).1
      firstSubmission rfl (by decide)).1,
   ((grade_is_overwrite acceptAll (some faculty) "sub1" (some "A") (some "B") campus).1
      firstSubmission rfl (by decide)).2.1⟩

/-- Counterexample to C4 as stated: the first submission of the sample campus
exists and is ungraded, and the store rejects the grade "B".  Grading "A" and
then "B" answers 200 and then 500 and leaves the record with grade "A"; grading
once with "B" answers 500 and leaves it ungraded.  The two stores differ and in
neither does the record have grade "B". -/
theorem grade_is_overwrite_counterexample :
    (StudentAAT1.findById "sub1" campus).2 = some firstSubmission ∧
      (gradeAAT1Submission rejectsB ⟨some faculty, ⟨"sub1"⟩, ⟨some "A"⟩⟩ campus).2.status =
        200 ∧
      (gradeAAT1Submission rejectsB ⟨some faculty, ⟨"sub1"⟩, ⟨some "B"⟩⟩
          (gradeAAT1Submission rejectsB ⟨some faculty, ⟨"sub1"⟩, ⟨some "A"⟩⟩
            campus).1).2.status = 500 ∧
      (gradeAAT1Submission rejectsB ⟨some faculty, ⟨"sub1"⟩, ⟨some "B"⟩⟩ campus).2.status =
        500 ∧
      (StudentAAT1.findById "sub1"
          (gradeAAT1Submission rejectsB ⟨some faculty, ⟨"sub1"⟩, ⟨some "B"⟩⟩
            (gradeAAT1Submission rejectsB ⟨some faculty, ⟨"sub1"⟩, ⟨some "A"⟩⟩
              campus).1).1).2 =
        some ⟨"sub1", "s1", "a1", "cert-asha.pdf", some "A", 100⟩ ∧
      (StudentAAT1.findById "sub1"
          (gradeAAT1Submission rejectsB ⟨some faculty, ⟨"sub1"⟩, ⟨some "B"⟩⟩ campus).1).2 =
        some ⟨"sub1", "s1", "a1", "cert-asha.pdf", none, 100⟩ ∧
      (gradeAAT1Submission rejectsB ⟨some faculty, ⟨"sub1"⟩, ⟨some "B"⟩⟩
          (gradeAAT1Submission rejectsB ⟨some faculty, ⟨"sub1"⟩, ⟨some "A"⟩⟩
            campus).1).1.db ≠
        (gradeAAT1Submission rejectsB ⟨some faculty, ⟨"sub1"⟩, ⟨some "B"⟩⟩ campus).1.db := by
  decide

/-! ## Listing submissions -/

/-- C8: `getAAT1Submissions` answers 200 with one view per stored submission:
the views' `_id`, `certificate`, `grade` and `submittedAt` are, up to order,
exactly the stored submissions' `_id`, `certificate`, `grade` and `createdAt`
(whether or not their references resolve), there are as many views as
submissions, the views are in descending order of `submittedAt`, and the
collections are not changed. -/
theorem getAAT1Submissions_complete_sorted (w : World) :
    ∃ views : List SubmissionView,
      (getAAT1Submissions w).2 = ⟨200, Payload.submissions views⟩ ∧
      (views.map (fun v => (v._id, v.certificate, v.grade, v.submittedAt))).Perm
        (w.db.submissions.map (fun s => (s._id, s.certificate, s.grade, s.createdAt))) ∧
      views.length = w.db.submissions.length ∧
      views.Pairwise (fun v v' => v.submittedAt ≥ v'.submittedAt) ∧
      (getAAT1Submissions w).1.db = w.db := by
  refine ⟨(sortByCreatedAtDesc (w.db.submissions.map (populate w.db))).map formatSubmission,
    rfl, ?_, ?_, ?_, rfl⟩
  · have hperm := List.perm_insertionSort
      (fun a b : PopulatedSubmission => a.createdAt ≥ b.createdAt)
      (w.db.submissions.map (populate w.db))
    have := hperm.map (fun p : PopulatedSubmission =>
      (p._id, p.certificate, p.grade, p.createdAt))
    simpa [sortByCreatedAtDesc, List.map_map, Function.comp_def, formatSubmission, populate]
      using this
  · have hperm := List.perm_insertionSort
      (fun a b : PopulatedSubmission => a.createdAt ≥ b.createdAt)
      (w.db.submissions.map (populate w.db))
    simp [sortByCreatedAtDesc]
  · haveI : IsTotal PopulatedSubmission (fun a b => a.createdAt ≥ b.createdAt) :=
      ⟨fun a b => Nat.le_total b.createdAt a.createdAt⟩
    haveI : IsTrans PopulatedSubmission (fun a b => a.createdAt ≥ b.createdAt) :=
      ⟨fun a b c hab hbc => Nat.le_trans hbc hab⟩
    have hsorted := List.sorted_insertionSort
      (fun a b : PopulatedSubmission => a.createdAt ≥ b.createdAt)
      (w.db.submissions.map (populate w.db))
    rw [List.pairwise_map]
    exact hsorted

/-- C9 (amended): every view returned by `getAAT1Submissions` belongs to a stored
submission.  When the referenced student resolves and its name is not empty,
`studentName` is that name; when the referenced assessment resolves and its
course link is not empty, `courseTitle` is that link.  When a reference does not
resolve, or resolves to an empty name or link, the field is "Unknown", and a
field is "Unknown" in no other case (unless "Unknown" is the stored value). -/
theorem getAAT1Submissions_labels (w : World) (views : List SubmissionView)
    (v : SubmissionView)
    (hviews : (getAAT1Submissions w).2.json = Payload.submissions views) (hv : v ∈ views) :
    ∃ s ∈ w.db.submissions, v._id = s._id ∧
      (∀ u, w.db.users.find? (fun x => x._id == s.studentId) = some u →
        (u.name ≠ "" → v.studentName = u.name) ∧ (u.name = "" → v.studentName = "Unknown")) ∧
      (∀ a, w.db.aat1s.find? (fun x => x._id == s.aat1Id) = some a →
        (a.courseLink ≠ "" → v.courseTitle = a.courseLink) ∧
        (a.courseLink = "" → v.courseTitle = "Unknown")) ∧
      (w.db.users.find? (fun x => x._id == s.studentId) = none → v.studentName = "Unknown") ∧
      (w.db.aat1s.find? (fun x => x._id == s.aat1Id) = none → v.courseTitle = "Unknown") ∧
      (v.studentName = "Unknown" →
        w.db.users.find? (fun x => x._id == s.studentId) = none ∨
        ∃ u, w.db.users.find? (fun x => x._id == s.studentId) = some u ∧
          (u.name = "" ∨ u.name = "Unknown")) ∧
      (v.courseTitle = "Unknown" →
        w.db.aat1s.find? (fun x => x._id == s.aat1Id) = none ∨
        ∃ a, w.db.aat1s.find? (fun x => x._id == s.aat1Id) = some a ∧
          (a.courseLink = "" ∨ a.courseLink = "Unknown")) := by
  have hviews' : views =
      (sortByCreatedAtDesc (w.db.submissions.map (populate w.db))).map formatSubmission := by
    have : Payload.submissions
        ((sortByCreatedAtDesc (w.db.submissions.map (populate w.db))).map formatSubmission) =
        Payload.submissions views := hviews
    exact (Payload.submissions.inj this).symm
  rw [hviews', List.mem_map] at hv
  obtain ⟨p, hp, hpv⟩ := hv
  have hp' : p ∈ w.db.submissions.map (populate w.db) :=
    (List.perm_insertionSort _ _).mem_iff.mp hp
  rw [List.mem_map] at hp'
  obtain ⟨s, hs, hsp⟩ := hp'
  refine ⟨s, hs, ?_⟩
  subst hpv
  subst hsp
  refine ⟨rfl, ?_, ?_, ?_, ?_, ?_, ?_⟩
  · intro u hu
    constructor <;> intro hname <;> simp [formatSubmission, populate, hu, orUnknown, hname]
  · intro a ha
    constructor <;> intro hlink <;> simp [formatSubmission, populate, ha, orUnknown, hlink]
  · intro hu
    simp [formatSubmission, populate, hu, orUnknown]
  · intro ha
    simp [formatSubmission, populate, ha, orUnknown]
  · intro hname
    cases hu : w.db.users.find? (fun x => x._id == s.studentId) with
    | none => exact Or.inl rfl
    | some u =>
      refine Or.inr ⟨u, rfl, ?_⟩
      by_cases hempty : u.name = ""
      · exact Or.inl hempty
      · right
        simpa [formatSubmission, populate, hu, orUnknown, hempty] using hname
  · intro hlink
    cases ha : w.db.aat1s.find? (fun x => x._id == s.aat1Id) with
    | none => exact Or.inl rfl
    | some a =>
      refine Or.inr ⟨a, rfl, ?_⟩
      by_cases hempty : a.courseLink = ""
      · exact Or.inl hempty
      · right
        simpa [formatSubmission, populate, ha, orUnknown, hempty] using hlink

/-- Witness for C9 (amended): the most recent submission of the sample campus is
shown with its student's name. -/
theorem getAAT1Submissions_labels_witness :
    ∃ s ∈ campus.db.submissions, s._id = "sub2" ∧
      ∀ u, campus.db.users.find? (fun x => x._id == s.studentId) = some u →
        u.name ≠ "" → "Ravi" = u.name :=
  let ⟨s, hs, hid, hname, _⟩ :=
    getAAT1Submissions_labels campus
      [⟨"sub2", "Ravi", "https://courses.example/algebra", "cert-ravi.pdf", some "B", 200⟩,
       ⟨"sub1", "Asha", "https://courses.example/algebra", "cert-asha.pdf", none, 100⟩]
      ⟨"sub2", "Ravi", "https://courses.example/algebra", "cert-ravi.pdf", some "B", 200⟩
      (by decide) (by decide)
  ⟨s, hs, hid.symm, fun u hu hne => (hname u hu).1 hne⟩

/-- Counterexample to C9 as stated: the student and the assessment of the one
submission both resolve, with an empty name and an empty course link; the view
shows "Unknown" for both, which is neither the student's name nor the
assessment's course link. -/
theorem getAAT1Submissions_placeholder_counterexample :
    blankLabels.db.users.find? (fun x => x._id == "s3") =
        some ⟨"s3", "", "meera@campus.edu", "student"⟩ ∧
      blankLabels.db.aat1s.find? (fun x => x._id == "a2") =
        some ⟨"a2", "", "2025-04-01", "f1"⟩ ∧
      (getAAT1Submissions blankLabels).2 =
        ⟨200, Payload.submissions
          [⟨"sub3", "Unknown", "Unknown", "cert-meera.pdf", none, 300⟩]⟩ ∧
      ("Unknown" : String) ≠ (⟨"s3", "", "meera@campus.edu", "student"⟩ : User).name ∧
      ("Unknown" : String) ≠ (⟨"a2", "", "2025-04-01", "f1"⟩ : AAT1).courseLink := by
  decide

end AAT
